import Mathlib

/-!
Shallow embedding of the Pothole Patrol backend core
(`core/utils.py`, `core/api.py`, `core/admin.py`, `core/models.py`).

Conventions of the embedding:
* Django model rows become Lean structures whose fields are exactly the
  model's persisted columns (`core/models.py`); `save()` is modelled by
  returning the updated structure, so an attribute assigned on the Python
  object that is *not* a model column has no slot here and is dropped,
  exactly as the database drops it.
* Python `int` fields declared `PositiveIntegerField` become `Nat`;
  quantities that Python computes with possibly-negative intermediate
  values are computed in `Int` and converted back.
* External capabilities (the Django cache, the payout HTTP call, PIL's
  image decoding, sha256 of request headers) are inputs to the embedded
  functions: the code under test only branches on their results.
* Exceptions are modelled with `Except`: `.error` is an exception
  propagating out of the modelled code, `.ok` a normal return value
  (including 4xx error responses, which the view returns, not raises).
-/

namespace PotholePatrol

/-- Status enum shared by `PotholeReport.Status` and
`RedemptionRequest.Status` in `core/models.py`: `pending`, `approved`,
`rejected`. -/
inductive RStatus where
  | pending
  | approved
  | rejected
  deriving Repr, DecidableEq

/-- Embeds `core/models.py` `RegionChoices` values (the 16 fixed regions). -/
def regionChoices : List String :=
  ["Greater Accra", "Ashanti", "Eastern", "Western", "Western North",
   "Central", "Volta", "Oti", "Northern", "Savannah", "North East",
   "Upper East", "Upper West", "Bono", "Bono East", "Ahafo"]

/-- Embeds `core/models.py` `UserProfile`: the persisted columns the core logic
touches. `points` is a `PositiveIntegerField`, hence `Nat`. -/
structure UserProfile where
  phone : String
  is_verified : Bool
  points : Nat
  deriving Repr, DecidableEq

/-- Embeds `core/models.py` `PotholeReport`: persisted columns. `user` and
`approved_by` are foreign keys, modelled as optional numeric ids;
`approved_at` is an optional timestamp (seconds); latitude/longitude are
carried as exact rationals. `rejection_reason` is a `TextField` with
default `""`. -/
structure PotholeReport where
  user : Option Nat
  image_hash : String
  latitude : ℚ
  longitude : ℚ
  region : String
  severity : Nat
  ai_valid : Bool := true
  ai_score : Option ℚ := none
  status : RStatus := RStatus.pending
  is_spam : Bool := false
  submitted_ip : Option String := none
  device_id : String := ""
  is_synced : Bool := true
  approved_by : Option Nat := none
  approved_at : Option Int := none
  rejection_reason : String := ""
  points_awarded : Nat := 0
  deriving Repr, DecidableEq

/-- Embeds `core/models.py` `RedemptionRequest`: persisted columns. Note the
model declares *no* rejection-reason column; `reference` is a
`CharField` whose default is `generate_reference` (applied at row
creation). -/
structure RedemptionRequest where
  user : Nat
  points : Nat
  airtime_amount : Int
  status : RStatus := RStatus.pending
  mtn_phone : String
  reference : String
  approved_by : Option Nat := none
  approved_at : Option Int := none
  deriving Repr, DecidableEq

/-- Embeds `core/utils.py` `generate_reference`: `"RDM-" + date_part + "-" +
random_part` where `date_part` is today's `%Y%m%d` and `random_part` six
uppercase hex characters of a uuid; both parts are inputs here. -/
def generate_reference (date_part random_part : String) : String :=
  "RDM-" ++ date_part ++ "-" ++ random_part

/-- Pad `s` on the left with `'0'` to at least `width` characters:
Python `str.zfill` on a string with no sign character. It never
truncates. -/
def zfill (width : Nat) (s : String) : String :=
  if s.length < width then String.mk (List.replicate (width - s.length) '0') ++ s
  else s

/-- Embeds `core/utils.py` `calculate_phash`, after PIL has decoded the image to
the greyscale 32×32 grid (`pixels`, luminance values 0–255 in row order):
`avg_pixel = sum(pixels)/len(pixels)`; one bit per pixel, `1` iff
`px >= avg_pixel`. The float quotient `sum/1024` and the comparison are
exact for these magnitudes (`sum < 2^18`, dividing by the power of two
`1024`), and `px ≥ sum/len ↔ len·px ≥ sum`; the bit is stated in that
equivalent integer form to keep it decidable. Then `int(bits, 2)` is
formatted as lowercase hex with `f"{...:0x}"` (no width ⇒ minimal
digits) and finally `.zfill(64)`. -/
def calculate_phash_pixels (pixels : List Nat) : String :=
  let bits : List Bool := pixels.map (fun px => decide (pixels.length * px ≥ pixels.sum))
  let value : Nat := bits.foldl (fun acc b => 2 * acc + (if b then 1 else 0)) 0
  zfill 64 (String.mk (Nat.toDigits 16 value))

/-- Embeds `core/utils.py` `ai_validate_pothole`: with `AI_BYPASS` set it
returns `(True, 0.99)`, otherwise the MVP fallback returns
`(True, 0.95)`; no other return path is live. -/
def ai_validate_pothole (ai_bypass : Bool) : Bool × ℚ :=
  if ai_bypass then (true, 0.99) else (true, 0.95)

/-- Embeds `core/utils.py` `award_report_points`: if `report.points_awarded > 0`
return unchanged (double-credit guard); otherwise add 50 to the owner's
profile points and set `points_awarded = 50`. Returns the saved
(report, profile) pair. -/
def award_report_points (report : PotholeReport) (profile : UserProfile) :
    PotholeReport × UserProfile :=
  if report.points_awarded > 0 then (report, profile)
  else
    ({ report with points_awarded := 50 }, { profile with points := profile.points + 50 })

/-- Embeds `core/admin.py` `approve_reports`, loop body for one selected report
(together with the profile row of its owner). Skips non-pending reports;
coerces `ai_valid = False` into a rejection with reason
`"AI rejected this image as non-pothole."`; otherwise marks approved
(setting `approved_at` to the current time and `approved_by` to the
acting admin) and calls `award_report_points`. -/
def approve_report_step (admin_user : Nat) (now : Int)
    (report : PotholeReport) (profile : UserProfile) :
    PotholeReport × UserProfile :=
  if report.status ≠ RStatus.pending then (report, profile)
  else if !report.ai_valid then
    ({ report with
        status := RStatus.rejected,
        rejection_reason := "AI rejected this image as non-pothole." }, profile)
  else
    let approved := { report with
        status := RStatus.approved,
        approved_at := some now,
        approved_by := some admin_user }
    award_report_points approved profile

/-- Embeds `core/admin.py` `reject_reports`, loop body for one selected report:
unconditionally sets `status = REJECTED` (no pending-status guard, unlike
`approve_reports`), and fills in `"Rejected by admin."` only when the
stored reason is empty (Python truthiness of the string). -/
def reject_report_step (report : PotholeReport) : PotholeReport :=
  { report with
      status := RStatus.rejected,
      rejection_reason :=
        if report.rejection_reason = "" then "Rejected by admin."
        else report.rejection_reason }

/-- Embeds `core/admin.py` `approve_redemption`, loop body for one selected
redemption with its owner's profile row. `payout` is the
`send_airtime_to_user` result `(success, reference)` — an external HTTP
call, so its outcome is an input. Non-pending requests are skipped. On
success: status approved, the external reference overwrites the stored
one, `approved_by`/`approved_at` set, and the profile points become
`max(0, profile.points - redemption.points)` (no sufficiency re-check).
On failure: status rejected and nothing else; the Python code also
assigns `redemption.rejection_reason`, but `RedemptionRequest` in
`core/models.py` declares no such column, so `save()` persists no reason
— the persisted row, embedded here, has no slot for it. -/
def approve_redemption_step (admin_user : Nat) (now : Int)
    (payout : Bool × String)
    (redemption : RedemptionRequest) (profile : UserProfile) :
    RedemptionRequest × UserProfile :=
  if redemption.status ≠ RStatus.pending then (redemption, profile)
  else if payout.1 then
    ({ redemption with
        status := RStatus.approved,
        reference := payout.2,
        approved_by := some admin_user,
        approved_at := some now },
     { profile with
        points := (max 0 ((profile.points : Int) - (redemption.points : Int))).toNat })
  else
    ({ redemption with status := RStatus.rejected }, profile)

/-- Outcomes of `core/api.py` `redeem_points` (the 400 error responses
and the 200 creation). -/
inductive RedeemOutcome where
  | notPositive
  | notMultipleOf500
  | insufficientPoints
  | created (r : RedemptionRequest)
  deriving Repr, DecidableEq

/-- Embeds `core/api.py` `redeem_points`: `points <= 0` → "Points must be
positive"; `points % 500 != 0` → "blocks of 500"; `profile.points <
points` → "Insufficient points"; otherwise a `RedemptionRequest` row is
created (status defaults to pending, `reference` defaults to
`generate_reference`, whose date and random parts are the `ref_date` and
`ref_rand` inputs) with `airtime_amount = (points // 500) * 5`. The
profile is not modified. -/
def redeem_points (user : Nat) (profile : UserProfile) (points : Int)
    (mtn_phone : String) (ref_date ref_rand : String) : RedeemOutcome :=
  if points ≤ 0 then RedeemOutcome.notPositive
  else if points % 500 ≠ 0 then RedeemOutcome.notMultipleOf500
  else if (profile.points : Int) < points then RedeemOutcome.insufficientPoints
  else
    RedeemOutcome.created
      { user := user
        points := points.toNat
        airtime_amount := (points / 500) * 5
        mtn_phone := mtn_phone
        reference := generate_reference ref_date ref_rand }

/-- Exception escaping the embedded Python code uncaught. PIL's
`Image.open` raises `UnidentifiedImageError` on bytes that are not a
parseable image. -/
inductive PyExn where
  | unidentifiedImage
  deriving Repr, DecidableEq

/-- Embeds `core/utils.py` `calculate_phash` on raw bytes: PIL decoding
(`Image.open(...).convert("L").resize((32, 32))`) is the external part,
its result an input: `none` when the bytes are not a parseable image (the
call raises), `some pixels` with the 32×32 greyscale grid otherwise. The
function itself installs no exception handler. -/
def calculate_phash (decoded : Option (List Nat)) : Except PyExn String :=
  match decoded with
  | none => Except.error PyExn.unidentifiedImage
  | some pixels => Except.ok (calculate_phash_pixels pixels)

/-- Outcomes of `core/api.py` `submit_report` (the 4xx error responses
and the 200 creation). -/
inductive SubmitOutcome where
  | rateLimitedUser
  | rateLimitedIp
  | spamDetected
  | invalidRegion
  | invalidImage
  | duplicateImage
  | created (r : PotholeReport)
  deriving Repr, DecidableEq

/-- Inputs of one `submit_report` call that come from outside the
embedded code: the two `rate_limit` cache outcomes, the
`detect_gps_spam` verdict for the payload's coordinates, the result of
`base64.b64decode` on the payload (`none` when it raises — that branch is
inside the view's try/except), the PIL decode of those bytes (`none`
when `Image.open` raises — that call happens inside `calculate_phash`,
*outside* the try/except), the current table of persisted reports for
the duplicate check, the `AI_BYPASS` setting, the client ip and the
device fingerprint derived from request headers. -/
structure SubmitEnv where
  rl_user : Bool
  rl_ip : Bool
  gps_spam : Bool
  b64_decoded : Option (List Nat)
  pil_pixels : Option (List Nat)
  existing : List PotholeReport
  ai_bypass : Bool
  client_ip : String
  device_fingerprint : String
  deriving Repr

/-- The request payload of `submit_report` (`ReportSubmitRequest` in
`core/schemas.py`). -/
structure ReportSubmitRequest where
  latitude : ℚ
  longitude : ℚ
  region : String
  severity : Nat
  device_id : Option String
  deriving Repr

/-- Embeds `core/api.py` `submit_report`, in the source's order: user rate
limit (3/60s) → ip rate limit (10/60s) → GPS spam check → region
membership in `RegionChoices` → base64 decode inside try/except
(failure caught, "Invalid image data") → `calculate_phash` *outside* any
handler (so a PIL decode failure propagates as an exception, modelled
with `Except.error`) → exact `image_hash` duplicate lookup →
`ai_validate_pothole` → row creation with `status` defaulting to
pending, `is_spam = not ai_valid`, `ai_score` stored, device id from the
payload or the derived fingerprint. -/
def submit_report (user : Nat) (env : SubmitEnv) (payload : ReportSubmitRequest) :
    Except PyExn SubmitOutcome :=
  if env.rl_user then Except.ok SubmitOutcome.rateLimitedUser
  else if env.rl_ip then Except.ok SubmitOutcome.rateLimitedIp
  else if env.gps_spam then Except.ok SubmitOutcome.spamDetected
  else if ¬ (payload.region ∈ regionChoices) then Except.ok SubmitOutcome.invalidRegion
  else
    match env.b64_decoded with
    | none => Except.ok SubmitOutcome.invalidImage
    | some _raw_image =>
      match calculate_phash env.pil_pixels with
      | Except.error e => Except.error e
      | Except.ok image_hash =>
        if env.existing.any (fun p => p.image_hash = image_hash) then
          Except.ok SubmitOutcome.duplicateImage
        else
          let v := ai_validate_pothole env.ai_bypass
          let device_id := payload.device_id.getD env.device_fingerprint
          Except.ok (SubmitOutcome.created
            { user := some user
              image_hash := image_hash
              latitude := payload.latitude
              longitude := payload.longitude
              region := payload.region
              severity := payload.severity
              ai_valid := v.1
              ai_score := some v.2
              is_spam := !v.1
              submitted_ip := some env.client_ip
              device_id := device_id
              is_synced := true })

/-- Python `math.radians`. -/
noncomputable def radians (deg : ℝ) : ℝ := deg * Real.pi / 180

/-- Python `math.atan2 y x` (four-quadrant arctangent; the embedded code
only ever calls it with non-negative arguments). -/
noncomputable def atan2 (y x : ℝ) : ℝ :=
  if 0 < x then Real.arctan (y / x)
  else if x < 0 ∧ 0 ≤ y then Real.arctan (y / x) + Real.pi
  else if x < 0 ∧ y < 0 then Real.arctan (y / x) - Real.pi
  else if x = 0 ∧ 0 < y then Real.pi / 2
  else if x = 0 ∧ y < 0 then -(Real.pi / 2)
  else 0

/-- Embeds `core/utils.py` `haversine_distance`: great-circle distance in
meters, Earth radius `R = 6371000`. -/
noncomputable def haversine_distance (lat1 lon1 lat2 lon2 : ℝ) : ℝ :=
  let R : ℝ := 6371000
  let phi1 := radians lat1
  let phi2 := radians lat2
  let dphi := radians (lat2 - lat1)
  let dlambda := radians (lon2 - lon1)
  let a :=
    Real.sin (dphi / 2) ^ 2 +
      Real.cos phi1 * Real.cos phi2 * Real.sin (dlambda / 2) ^ 2
  R * (2 * atan2 (Real.sqrt a) (Real.sqrt (1 - a)))

/-- The columns of a persisted report that `detect_gps_spam` reads
(owner, exact coordinates as reals, creation time in seconds). -/
structure GpsReport where
  user : Nat
  latitude : ℝ
  longitude : ℝ
  created_at : Int

/-- Embeds `core/utils.py` `detect_gps_spam`: filter the report table to this
user's reports with `created_at >= now - recent_minutes`, count those at
haversine distance `<= threshold_m` from the candidate point, and flag
spam when the count is `>= 3`. Callers use the defaults
`threshold_m = 100`, `recent_minutes = 5`. -/
noncomputable def detect_gps_spam (db : List GpsReport) (user : Nat)
    (lat lon : ℝ) (now : Int) (threshold_m : ℝ) (recent_minutes : Int) : Bool :=
  let time_limit := now - recent_minutes * 60
  let recent_reports := db.filter
    (fun r => decide (r.user = user) && decide (time_limit ≤ r.created_at))
  let nearby_count := recent_reports.foldl
    (fun acc r =>
      if haversine_distance lat lon r.latitude r.longitude ≤ threshold_m then
        acc + 1
      else acc)
    (0 : Nat)
  decide (3 ≤ nearby_count)

/-- Helper for stating substring properties: does the first character
list occur as a prefix of the second? -/
def startsWithChars : List Char → List Char → Bool
  | [], _ => true
  | _ :: _, [] => false
  | a :: as, b :: bs => a == b && startsWithChars as bs

/-- Helper for stating substring properties: does the first character
list occur contiguously anywhere inside the second? -/
def containsSub : List Char → List Char → Bool
  | needle, [] => startsWithChars needle []
  | needle, b :: bs => startsWithChars needle (b :: bs) || containsSub needle bs

/-- Python's `needle in hay` on strings, used to state what a recorded
reason contains. -/
def stringHasSub (needle hay : String) : Bool :=
  containsSub needle.toList hay.toList

/-! ## Helper lemmas -/

/-- Folding the bit-packing step of `calculate_phash_pixels` over a run
of `1` bits: the accumulated value satisfies `v + 1 = (acc + 1) * 2 ^ n`
(stated without truncated subtraction). -/
theorem foldl_phash_true (n acc : Nat) :
    (List.replicate n true).foldl (fun acc b => 2 * acc + (if b then 1 else 0)) acc + 1 =
      (acc + 1) * 2 ^ n := by
  induction n generalizing acc with
  | zero => simp
  | succ n ih =>
    rw [List.replicate_succ, List.foldl_cons, ih]
    simp only [if_true]
    ring

/-- Folding the bit-packing step of `calculate_phash_pixels` over a run
of `0` bits multiplies the accumulator by `2 ^ n`. -/
theorem foldl_phash_false (n acc : Nat) :
    (List.replicate n false).foldl (fun acc b => 2 * acc + (if b then 1 else 0)) acc =
      acc * 2 ^ n := by
  induction n generalizing acc with
  | zero => simp
  | succ n ih =>
    rw [List.replicate_succ, List.foldl_cons, ih]
    simp only [Bool.false_eq_true, if_false]
    ring

/-- On a uniform pixel grid every luminance equals the mean, so every
bit of the average-hash is `1` and the packed value is `2 ^ n - 1`. -/
theorem calculate_phash_pixels_uniform (n v : Nat) :
    calculate_phash_pixels (List.replicate n v) =
      zfill 64 (String.mk (Nat.toDigits 16 (2 ^ n - 1))) := by
  have hfold := foldl_phash_true n 0
  simp only [calculate_phash_pixels, List.map_replicate, List.length_replicate,
    List.sum_replicate, smul_eq_mul, ge_iff_le, le_refl, decide_True]
  congr 3
  omega

/-- An `if p r then acc + 1 else acc` fold is the `countP` of the
condition. -/
theorem foldl_count_eq_countP {α : Type} (p : α → Prop) [DecidablePred p]
    (l : List α) (n : Nat) :
    l.foldl (fun acc r => if p r then acc + 1 else acc) n =
      n + l.countP (fun r => decide (p r)) := by
  induction l generalizing n with
  | nil => simp
  | cons a t ih =>
    rw [List.foldl_cons, ih, List.countP_cons]
    by_cases h : p a
    · simp [h]; omega
    · simp [h]

/-! ## Claim theorems -/

set_option maxRecDepth 100000 in
/-- C6: the spec says `fingerprint` returns a hex string of exactly 64
characters for every decodable image. Evaluating the embedded
`calculate_phash_pixels` on the 32×32 grid of a uniform all-white image
(1024 pixels of luminance 255, each equal to the mean) instead yields a
256-character string: the 1024 threshold bits pack into up to 256 hex
digits and `zfill(64)` only pads, never truncates. This contradicts the
64-character contract and the `image_hash` column's `max_length=64`. -/
theorem phash_uniform_image_length_256 :
    (calculate_phash_pixels (List.replicate 1024 255)).length = 256 := by
  rw [calculate_phash_pixels_uniform]
  decide

/-- C9: the embedded `detect_gps_spam`, at its call-site arguments
(threshold 100 meters, window 5 minutes), returns `true` exactly when at
least 3 of the given user's own reports created within the last 5
minutes lie within 100 meters of the candidate point under the
haversine distance; reports of other users, older reports and farther
reports are never counted. -/
theorem detect_gps_spam_spec (db : List GpsReport) (u : Nat) (lat lon : ℝ) (now : Int) :
    detect_gps_spam db u lat lon now 100 5 = true ↔
      3 ≤ (db.filter (fun r =>
        decide (r.user = u) && decide (now - 5 * 60 ≤ r.created_at) &&
        decide (haversine_distance lat lon r.latitude r.longitude ≤ 100))).length := by
  simp only [detect_gps_spam]
  rw [foldl_count_eq_countP
    (fun r : GpsReport => haversine_distance lat lon r.latitude r.longitude ≤ 100)]
  rw [List.countP_filter, ← List.countP_eq_length_filter]
  have hpred :
      (fun r : GpsReport =>
          decide (haversine_distance lat lon r.latitude r.longitude ≤ 100) &&
            (decide (r.user = u) && decide (now - 5 * 60 ≤ r.created_at))) =
        (fun r : GpsReport =>
          decide (r.user = u) && decide (now - 5 * 60 ≤ r.created_at) &&
            decide (haversine_distance lat lon r.latitude r.longitude ≤ 100)) := by
    funext r
    cases decide (r.user = u) <;>
      cases decide (now - 5 * 60 ≤ r.created_at) <;>
        cases decide (haversine_distance lat lon r.latitude r.longitude ≤ 100) <;> rfl
  rw [hpred]
  simp


/-- C1 counterexample: a pending `RedemptionRequest` for 500 points
held by an owner whose balance is only 100 is still settled as approved
by `approve_redemption_step` when the payout succeeds — the
balance-sufficiency condition is not re-checked at settlement time, and
the resulting balance is clamped to 0. -/
theorem redemption_no_balance_recheck_cex :
    (approve_redemption_step 1 0 (true, "ATQid123")
        { user := 2, points := 500, airtime_amount := 5,
          mtn_phone := "0244000000", reference := "RDM-20250101-AAAAAA" }
        { phone := "0244000000", is_verified := true, points := 100 }).1.status =
      RStatus.approved ∧
    ({ user := 2, points := 500, airtime_amount := 5,
       mtn_phone := "0244000000", reference := "RDM-20250101-AAAAAA" } :
        RedemptionRequest).points >
      ({ phone := "0244000000", is_verified := true, points := 100 } :
        UserProfile).points ∧
    (approve_redemption_step 1 0 (true, "ATQid123")
        { user := 2, points := 500, airtime_amount := 5,
          mtn_phone := "0244000000", reference := "RDM-20250101-AAAAAA" }
        { phone := "0244000000", is_verified := true, points := 100 }).2.points = 0 := by
  decide

/-- C1 (amended): balance sufficiency is checked only when the request
is created — `redeem_points` rejects a request exceeding the current
balance with `insufficientPoints` — while settlement performs no
re-check: a pending request whose payout succeeds is always approved,
the owner's balance becoming `max(0, balance - points)` (clamped, never
negative), even when `points` exceeds the balance. -/
theorem redemption_sufficiency_only_at_creation
    (adm : Nat) (now : Int) (ref : String)
    (red : RedemptionRequest) (profile : UserProfile)
    (hpending : red.status = RStatus.pending)
    (u : Nat) (pr : UserProfile) (pts : Int) (phone d x : String)
    (hpos : 0 < pts) (hmul : pts % 500 = 0) (hbal : (pr.points : Int) < pts) :
    (approve_redemption_step adm now (true, ref) red profile).1.status =
        RStatus.approved ∧
    ((approve_redemption_step adm now (true, ref) red profile).2.points : Int) =
        max 0 ((profile.points : Int) - (red.points : Int)) ∧
    redeem_points u pr pts phone d x = RedeemOutcome.insufficientPoints := by
  refine ⟨?_, ?_, ?_⟩
  · simp [approve_redemption_step, hpending]
  · simp only [approve_redemption_step, hpending]
    simp [Int.toNat_of_nonneg, le_max_left]
  · simp only [redeem_points]
    rw [if_neg (by omega), if_neg (by omega), if_pos hbal]

/-- C1 witness. -/
theorem redemption_sufficiency_only_at_creation_witness :
    ({ user := 2, points := 500, airtime_amount := 5, mtn_phone := "0244000000",
       reference := "RDM-20250101-AAAAAA" } : RedemptionRequest).status =
        RStatus.pending ∧
    (0 : Int) < 500 ∧ (500 : Int) % 500 = 0 ∧
    ((({ phone := "0244000000", is_verified := true, points := 100 } :
        UserProfile).points : Int) < 500) ∧
    ((approve_redemption_step 1 0 (true, "ATQid123")
        { user := 2, points := 500, airtime_amount := 5, mtn_phone := "0244000000",
          reference := "RDM-20250101-AAAAAA" }
        { phone := "0244000000", is_verified := true, points := 100 }).1.status =
          RStatus.approved ∧
      ((approve_redemption_step 1 0 (true, "ATQid123")
          { user := 2, points := 500, airtime_amount := 5, mtn_phone := "0244000000",
            reference := "RDM-20250101-AAAAAA" }
          { phone := "0244000000", is_verified := true, points := 100 }).2.points : Int) =
          max 0 ((({ phone := "0244000000", is_verified := true, points := 100 } :
              UserProfile).points : Int) -
            (({ user := 2, points := 500, airtime_amount := 5, mtn_phone := "0244000000",
                reference := "RDM-20250101-AAAAAA" } : RedemptionRequest).points : Int)) ∧
      redeem_points 9
          { phone := "0244000000", is_verified := true, points := 100 } 500
          "0244000000" "20250101" "BBBBBB" = RedeemOutcome.insufficientPoints) :=
  ⟨rfl, by decide, by decide, by decide,
    redemption_sufficiency_only_at_creation 1 0 "ATQid123"
      { user := 2, points := 500, airtime_amount := 5, mtn_phone := "0244000000",
        reference := "RDM-20250101-AAAAAA" }
      { phone := "0244000000", is_verified := true, points := 100 }
      rfl 9 { phone := "0244000000", is_verified := true, points := 100 } 500
      "0244000000" "20250101" "BBBBBB" (by decide) (by decide) (by decide)⟩

/-- C2 counterexample: applying the reject action to an already-approved
report does not leave it approved — `reject_report_step` has no
pending-status guard and moves the report to rejected. -/
theorem reject_overrides_approved_cex :
    ({ user := some 1, image_hash := "h1", latitude := 0, longitude := 0,
       region := "Ashanti", severity := 3, status := RStatus.approved } :
        PotholeReport).status = RStatus.approved ∧
    (reject_report_step
        { user := some 1, image_hash := "h1", latitude := 0, longitude := 0,
          region := "Ashanti", severity := 3, status := RStatus.approved }).status =
      RStatus.rejected := by
  exact ⟨rfl, rfl⟩

/-- C2 (amended): only the approve action is a terminal-state no-op —
`approve_report_step` returns report and profile unchanged whenever the
status is not pending — while the reject action is unconditional:
`reject_report_step` sets any report's status to rejected (approved ones
included), filling in the default reason only when none is stored. -/
theorem review_terminal_behavior (adm : Nat) (now : Int)
    (r r2 : PotholeReport) (p : UserProfile)
    (h : r.status ≠ RStatus.pending) :
    approve_report_step adm now r p = (r, p) ∧
    (reject_report_step r2).status = RStatus.rejected ∧
    (reject_report_step r2).rejection_reason =
      (if r2.rejection_reason = "" then "Rejected by admin."
       else r2.rejection_reason) := by
  refine ⟨?_, rfl, rfl⟩
  simp [approve_report_step, h]

/-- C2 witness. -/
theorem review_terminal_behavior_witness :
    ({ user := some 1, image_hash := "h2", latitude := 0, longitude := 0,
       region := "Ashanti", severity := 2, status := RStatus.rejected } :
        PotholeReport).status ≠ RStatus.pending ∧
    (approve_report_step 1 0
        { user := some 1, image_hash := "h2", latitude := 0, longitude := 0,
          region := "Ashanti", severity := 2, status := RStatus.rejected }
        { phone := "0244000000", is_verified := true, points := 0 } =
      ({ user := some 1, image_hash := "h2", latitude := 0, longitude := 0,
         region := "Ashanti", severity := 2, status := RStatus.rejected },
       { phone := "0244000000", is_verified := true, points := 0 }) ∧
      (reject_report_step
          { user := some 1, image_hash := "h1", latitude := 0, longitude := 0,
            region := "Ashanti", severity := 3, status := RStatus.approved }).status =
        RStatus.rejected ∧
      (reject_report_step
          { user := some 1, image_hash := "h1", latitude := 0, longitude := 0,
            region := "Ashanti", severity := 3, status := RStatus.approved }).rejection_reason =
        (if ({ user := some 1, image_hash := "h1", latitude := 0, longitude := 0,
               region := "Ashanti", severity := 3, status := RStatus.approved } :
                PotholeReport).rejection_reason = "" then "Rejected by admin."
         else ({ user := some 1, image_hash := "h1", latitude := 0, longitude := 0,
                 region := "Ashanti", severity := 3, status := RStatus.approved } :
                  PotholeReport).rejection_reason)) :=
  ⟨by decide,
    review_terminal_behavior 1 0
      { user := some 1, image_hash := "h2", latitude := 0, longitude := 0,
        region := "Ashanti", severity := 2, status := RStatus.rejected }
      { user := some 1, image_hash := "h1", latitude := 0, longitude := 0,
        region := "Ashanti", severity := 3, status := RStatus.approved }
      { phone := "0244000000", is_verified := true, points := 0 }
      (by decide)⟩

/-- C3: `award_report_points` on a report with `points_awarded = 0`
credits exactly 50 points to the owner's balance and sets the report's
`points_awarded` to 50; calling it again on the result changes neither
the report nor the balance (idempotence via the `points_awarded > 0`
guard). -/
theorem award_points_fixed_and_idempotent (r : PotholeReport) (p : UserProfile)
    (h : r.points_awarded = 0) :
    (award_report_points r p).2.points = p.points + 50 ∧
    (award_report_points r p).1.points_awarded = 50 ∧
    award_report_points (award_report_points r p).1 (award_report_points r p).2 =
      ((award_report_points r p).1, (award_report_points r p).2) := by
  simp [award_report_points, h]

/-- C3 witness. -/
theorem award_points_fixed_and_idempotent_witness :
    ({ user := some 3, image_hash := "h3", latitude := 0, longitude := 0,
       region := "Volta", severity := 4 } : PotholeReport).points_awarded = 0 ∧
    ((award_report_points
        { user := some 3, image_hash := "h3", latitude := 0, longitude := 0,
          region := "Volta", severity := 4 }
        { phone := "0244000001", is_verified := false, points := 70 }).2.points =
      ({ phone := "0244000001", is_verified := false, points := 70 } :
          UserProfile).points + 50 ∧
    (award_report_points
        { user := some 3, image_hash := "h3", latitude := 0, longitude := 0,
          region := "Volta", severity := 4 }
        { phone := "0244000001", is_verified := false, points := 70 }).1.points_awarded = 50 ∧
    award_report_points
        (award_report_points
          { user := some 3, image_hash := "h3", latitude := 0, longitude := 0,
            region := "Volta", severity := 4 }
          { phone := "0244000001", is_verified := false, points := 70 }).1
        (award_report_points
          { user := some 3, image_hash := "h3", latitude := 0, longitude := 0,
            region := "Volta", severity := 4 }
          { phone := "0244000001", is_verified := false, points := 70 }).2 =
      ((award_report_points
          { user := some 3, image_hash := "h3", latitude := 0, longitude := 0,
            region := "Volta", severity := 4 }
          { phone := "0244000001", is_verified := false, points := 70 }).1,
       (award_report_points
          { user := some 3, image_hash := "h3", latitude := 0, longitude := 0,
            region := "Volta", severity := 4 }
          { phone := "0244000001", is_verified := false, points := 70 }).2)) :=
  ⟨rfl,
    award_points_fixed_and_idempotent
      { user := some 3, image_hash := "h3", latitude := 0, longitude := 0,
        region := "Volta", severity := 4 }
      { phone := "0244000001", is_verified := false, points := 70 } rfl⟩

/-- C4: evaluating a failed settlement (payout returns
`(False, "")`) of a pending 500-point request against a 1000-point
balance. The persisted outcome is exactly the original row with status
moved to rejected and the balance untouched — in particular no
rejection reason is recorded anywhere in the persisted
`RedemptionRequest`, because `core/models.py` declares no
rejection-reason column for it, so the reason string assigned in
`approve_redemption` is silently dropped by `save()`. -/
theorem redemption_failure_persists_no_reason :
    approve_redemption_step 1 0 (false, "")
        { user := 2, points := 500, airtime_amount := 5,
          mtn_phone := "0244000000", reference := "RDM-20250101-AAAAAA" }
        { phone := "0244000000", is_verified := true, points := 1000 } =
      ({ user := 2, points := 500, airtime_amount := 5, status := RStatus.rejected,
         mtn_phone := "0244000000", reference := "RDM-20250101-AAAAAA" },
       { phone := "0244000000", is_verified := true, points := 1000 }) := by
  decide

/-- C5 counterexample: a `RedemptionRequest` created by `redeem_points`
is pending yet already carries a non-empty reference — the model field's
`generate_reference` default — contradicting "a request in pending or
rejected status has no reference". -/
theorem reference_set_at_creation_cex :
    redeem_points 2 { phone := "0244000000", is_verified := true, points := 1000 }
        500 "0244000000" "20251012" "A1B2C3" =
      RedeemOutcome.created
        { user := 2, points := 500, airtime_amount := 5,
          mtn_phone := "0244000000", reference := "RDM-20251012-A1B2C3" } ∧
    ({ user := 2, points := 500, airtime_amount := 5,
       mtn_phone := "0244000000", reference := "RDM-20251012-A1B2C3" } :
        RedemptionRequest).status = RStatus.pending ∧
    ({ user := 2, points := 500, airtime_amount := 5,
       mtn_phone := "0244000000", reference := "RDM-20251012-A1B2C3" } :
        RedemptionRequest).reference ≠ "" := by
  refine ⟨?_, rfl, by decide⟩
  decide

/-- C5 (amended): every `RedemptionRequest` is created with the
generated internal reference `RDM-<date>-<random>` (never empty), so
pending requests do carry a reference; the *external* payout reference
overwrites it only on successful settlement, while a failed settlement
leaves the creation-time reference in place. -/
theorem reference_lifecycle (u : Nat) (pr : UserProfile) (pts : Int)
    (phone d x : String) (red : RedemptionRequest) (adm : Nat) (now : Int)
    (extref : String)
    (hpos : 0 < pts) (hmul : pts % 500 = 0) (hbal : pts ≤ (pr.points : Int))
    (hpend : red.status = RStatus.pending) :
    redeem_points u pr pts phone d x =
      RedeemOutcome.created
        { user := u, points := pts.toNat, airtime_amount := pts / 500 * 5,
          mtn_phone := phone, reference := generate_reference d x } ∧
    generate_reference d x ≠ "" ∧
    (approve_redemption_step adm now (true, extref) red pr).1.reference = extref ∧
    (approve_redemption_step adm now (false, "") red pr).1.reference = red.reference := by
  refine ⟨?_, ?_, ?_, ?_⟩
  · simp only [redeem_points]
    rw [if_neg (by omega), if_neg (by omega), if_neg (by omega)]
  · intro hcontra
    have hlen := congrArg String.length hcontra
    simp [generate_reference, String.length_append] at hlen
    exact absurd hlen.1.1.1 (by decide)
  · simp [approve_redemption_step, hpend]
  · simp [approve_redemption_step, hpend]

/-- C5 witness. -/
theorem reference_lifecycle_witness :
    (0 : Int) < 500 ∧ (500 : Int) % 500 = 0 ∧
    ((500 : Int) ≤ (({ phone := "0244000000", is_verified := true, points := 1000 } :
        UserProfile).points : Int)) ∧
    ({ user := 2, points := 500, airtime_amount := 5, mtn_phone := "0244000000",
       reference := "RDM-20251012-A1B2C3" } : RedemptionRequest).status =
      RStatus.pending ∧
    (redeem_points 2 { phone := "0244000000", is_verified := true, points := 1000 }
        500 "0244000000" "20251012" "A1B2C3" =
      RedeemOutcome.created
        { user := 2, points := (500 : Int).toNat,
          airtime_amount := (500 : Int) / 500 * 5,
          mtn_phone := "0244000000",
          reference := generate_reference "20251012" "A1B2C3" } ∧
      generate_reference "20251012" "A1B2C3" ≠ "" ∧
      (approve_redemption_step 1 0 (true, "ATQid999")
          { user := 2, points := 500, airtime_amount := 5, mtn_phone := "0244000000",
            reference := "RDM-20251012-A1B2C3" }
          { phone := "0244000000", is_verified := true, points := 1000 }).1.reference =
        "ATQid999" ∧
      (approve_redemption_step 1 0 (false, "")
          { user := 2, points := 500, airtime_amount := 5, mtn_phone := "0244000000",
            reference := "RDM-20251012-A1B2C3" }
          { phone := "0244000000", is_verified := true, points := 1000 }).1.reference =
        ({ user := 2, points := 500, airtime_amount := 5, mtn_phone := "0244000000",
           reference := "RDM-20251012-A1B2C3" } : RedemptionRequest).reference) :=
  ⟨by decide, by decide, by decide, rfl,
    reference_lifecycle 2 { phone := "0244000000", is_verified := true, points := 1000 }
      500 "0244000000" "20251012" "A1B2C3"
      { user := 2, points := 500, airtime_amount := 5, mtn_phone := "0244000000",
        reference := "RDM-20251012-A1B2C3" }
      1 0 "ATQid999" (by decide) (by decide) (by decide) rfl⟩

/-- C7 counterexample: approving a pending report whose validity flag is
false does coerce it into a rejection, but the recorded reason is
`"AI rejected this image as non-pothole."`, which does not contain the
substring "invalid". -/
theorem invalid_coercion_reason_wording_cex :
    (approve_report_step 1 0
        { user := some 4, image_hash := "h4", latitude := 0, longitude := 0,
          region := "Ashanti", severity := 3, ai_valid := false }
        { phone := "0244000002", is_verified := true, points := 0 }).1.status =
      RStatus.rejected ∧
    stringHasSub "invalid"
      (approve_report_step 1 0
        { user := some 4, image_hash := "h4", latitude := 0, longitude := 0,
          region := "Ashanti", severity := 3, ai_valid := false }
        { phone := "0244000002", is_verified := true, points := 0 }).1.rejection_reason =
      false := by
  refine ⟨rfl, ?_⟩
  decide

/-- C7 (amended): for a pending report with `ai_valid = false`, an
approve action is coerced into a rejection — the result is rejected and
never approved, `approved_at` and `points_awarded` are untouched, the
owner's profile is unchanged — and the recorded reason is the fixed
string "AI rejected this image as non-pothole." (which mentions the AI
rejection but does not contain the substring "invalid"). -/
theorem approve_invalid_coerced_to_rejection (adm : Nat) (now : Int)
    (r : PotholeReport) (p : UserProfile)
    (hp : r.status = RStatus.pending) (hv : r.ai_valid = false) :
    (approve_report_step adm now r p).1.status = RStatus.rejected ∧
    (approve_report_step adm now r p).1.rejection_reason =
      "AI rejected this image as non-pothole." ∧
    (approve_report_step adm now r p).1.approved_at = r.approved_at ∧
    (approve_report_step adm now r p).1.points_awarded = r.points_awarded ∧
    (approve_report_step adm now r p).2 = p := by
  refine ⟨?_, ?_, ?_, ?_, ?_⟩ <;> simp [approve_report_step, hp, hv]

/-- C7 witness. -/
theorem approve_invalid_coerced_to_rejection_witness :
    ({ user := some 4, image_hash := "h4", latitude := 0, longitude := 0,
       region := "Ashanti", severity := 3, ai_valid := false } :
        PotholeReport).status = RStatus.pending ∧
    ({ user := some 4, image_hash := "h4", latitude := 0, longitude := 0,
       region := "Ashanti", severity := 3, ai_valid := false } :
        PotholeReport).ai_valid = false ∧
    ((approve_report_step 1 0
        { user := some 4, image_hash := "h4", latitude := 0, longitude := 0,
          region := "Ashanti", severity := 3, ai_valid := false }
        { phone := "0244000002", is_verified := true, points := 0 }).1.status =
      RStatus.rejected ∧
    (approve_report_step 1 0
        { user := some 4, image_hash := "h4", latitude := 0, longitude := 0,
          region := "Ashanti", severity := 3, ai_valid := false }
        { phone := "0244000002", is_verified := true, points := 0 }).1.rejection_reason =
      "AI rejected this image as non-pothole." ∧
    (approve_report_step 1 0
        { user := some 4, image_hash := "h4", latitude := 0, longitude := 0,
          region := "Ashanti", severity := 3, ai_valid := false }
        { phone := "0244000002", is_verified := true, points := 0 }).1.approved_at =
      ({ user := some 4, image_hash := "h4", latitude := 0, longitude := 0,
         region := "Ashanti", severity := 3, ai_valid := false } :
          PotholeReport).approved_at ∧
    (approve_report_step 1 0
        { user := some 4, image_hash := "h4", latitude := 0, longitude := 0,
          region := "Ashanti", severity := 3, ai_valid := false }
        { phone := "0244000002", is_verified := true, points := 0 }).1.points_awarded =
      ({ user := some 4, image_hash := "h4", latitude := 0, longitude := 0,
         region := "Ashanti", severity := 3, ai_valid := false } :
          PotholeReport).points_awarded ∧
    (approve_report_step 1 0
        { user := some 4, image_hash := "h4", latitude := 0, longitude := 0,
          region := "Ashanti", severity := 3, ai_valid := false }
        { phone := "0244000002", is_verified := true, points := 0 }).2 =
      { phone := "0244000002", is_verified := true, points := 0 }) :=
  ⟨rfl, rfl,
    approve_invalid_coerced_to_rejection 1 0
      { user := some 4, image_hash := "h4", latitude := 0, longitude := 0,
        region := "Ashanti", severity := 3, ai_valid := false }
      { phone := "0244000002", is_verified := true, points := 0 } rfl rfl⟩

/-- C8: a payload whose image field base64-decodes (here to the bytes of
"not an image") but is not parseable image data does not produce the
InvalidImage error response: `calculate_phash` is invoked outside the
try/except that guards base64 decoding, so PIL's exception escapes
`submit_report` uncaught (no report row is created either, but the
pipeline contract of a typed error outcome is broken). -/
theorem submit_unparseable_image_raises :
    submit_report 7
      { rl_user := false, rl_ip := false, gps_spam := false,
        b64_decoded := some [110, 111, 116, 32, 97, 110, 32, 105, 109, 97, 103, 101],
        pil_pixels := none, existing := [], ai_bypass := false,
        client_ip := "203.0.113.5", device_fingerprint := "fp1" }
      { latitude := 0, longitude := 0, region := "Ashanti", severity := 3,
        device_id := none } =
      Except.error PyExn.unidentifiedImage := by
  rfl

/-- C10: the content-validation step always validates — for either
value of the `AI_BYPASS` setting, `ai_validate_pothole` returns
`(true, 0.99)` (bypass on) or `(true, 0.95)` (bypass off) — so every
report created by `submit_report` has `ai_valid = true`,
`is_spam = false` and pending status, and the validity-false coercion
branch of `approve_report_step` is unreachable for it: approving such a
report marks it approved. -/
theorem ai_validation_always_valid (bypass : Bool) (u adm : Nat) (now : Int)
    (env : SubmitEnv) (payload : ReportSubmitRequest) (r : PotholeReport)
    (p : UserProfile)
    (h : submit_report u env payload = Except.ok (SubmitOutcome.created r)) :
    ai_validate_pothole bypass = (true, if bypass then (0.99 : ℚ) else (0.95 : ℚ)) ∧
    r.ai_valid = true ∧ r.is_spam = false ∧ r.status = RStatus.pending ∧
    (approve_report_step adm now r p).1.status = RStatus.approved := by
  refine ⟨by cases bypass <;> rfl, ?_⟩
  simp only [submit_report, calculate_phash] at h
  split at h
  · simp at h
  split at h
  · simp at h
  split at h
  · simp at h
  split at h
  · simp at h
  split at h
  · simp at h
  split at h
  · simp at h
  split at h
  · simp at h
  simp only [Except.ok.injEq, SubmitOutcome.created.injEq] at h
  subst h
  refine ⟨?_, ?_, ?_, ?_⟩ <;>
    cases h2 : env.ai_bypass <;>
      simp [h2, ai_validate_pothole, approve_report_step, award_report_points]

/-- C10 witness. -/
theorem ai_validation_always_valid_witness :
    submit_report 7
      { rl_user := false, rl_ip := false, gps_spam := false,
        b64_decoded := some [1, 2, 3],
        pil_pixels := some (List.replicate 1024 255), existing := [],
        ai_bypass := false, client_ip := "203.0.113.5",
        device_fingerprint := "fp2" }
      { latitude := 0, longitude := 0, region := "Ashanti", severity := 3,
        device_id := some "dev1" } =
      Except.ok (SubmitOutcome.created
        { user := some 7,
          image_hash := calculate_phash_pixels (List.replicate 1024 255),
          latitude := 0, longitude := 0, region := "Ashanti", severity := 3,
          ai_valid := true, ai_score := some 0.95, is_spam := false,
          submitted_ip := some "203.0.113.5", device_id := "dev1",
          is_synced := true }) ∧
    (ai_validate_pothole false = (true, if false then (0.99 : ℚ) else (0.95 : ℚ)) ∧
      ({ user := some 7,
         image_hash := calculate_phash_pixels (List.replicate 1024 255),
         latitude := 0, longitude := 0, region := "Ashanti", severity := 3,
         ai_valid := true, ai_score := some 0.95, is_spam := false,
         submitted_ip := some "203.0.113.5", device_id := "dev1",
         is_synced := true } : PotholeReport).ai_valid = true ∧
      ({ user := some 7,
         image_hash := calculate_phash_pixels (List.replicate 1024 255),
         latitude := 0, longitude := 0, region := "Ashanti", severity := 3,
         ai_valid := true, ai_score := some 0.95, is_spam := false,
         submitted_ip := some "203.0.113.5", device_id := "dev1",
         is_synced := true } : PotholeReport).is_spam = false ∧
      ({ user := some 7,
         image_hash := calculate_phash_pixels (List.replicate 1024 255),
         latitude := 0, longitude := 0, region := "Ashanti", severity := 3,
         ai_valid := true, ai_score := some 0.95, is_spam := false,
         submitted_ip := some "203.0.113.5", device_id := "dev1",
         is_synced := true } : PotholeReport).status = RStatus.pending ∧
      (approve_report_step 1 0
          { user := some 7,
            image_hash := calculate_phash_pixels (List.replicate 1024 255),
            latitude := 0, longitude := 0, region := "Ashanti", severity := 3,
            ai_valid := true, ai_score := some 0.95, is_spam := false,
            submitted_ip := some "203.0.113.5", device_id := "dev1",
            is_synced := true }
          { phone := "0244000003", is_verified := true, points := 10 }).1.status =
        RStatus.approved) :=
  ⟨rfl,
    ai_validation_always_valid false 7 1 0
      { rl_user := false, rl_ip := false, gps_spam := false,
        b64_decoded := some [1, 2, 3],
        pil_pixels := some (List.replicate 1024 255), existing := [],
        ai_bypass := false, client_ip := "203.0.113.5",
        device_fingerprint := "fp2" }
      { latitude := 0, longitude := 0, region := "Ashanti", severity := 3,
        device_id := some "dev1" }
      { user := some 7,
        image_hash := calculate_phash_pixels (List.replicate 1024 255),
        latitude := 0, longitude := 0, region := "Ashanti", severity := 3,
        ai_valid := true, ai_score := some 0.95, is_spam := false,
        submitted_ip := some "203.0.113.5", device_id := "dev1",
        is_synced := true }
      { phone := "0244000003", is_verified := true, points := 10 }
      rfl⟩

end PotholePatrol
